import Mathlib

/-!
Verification development for a Solana pump.fun sniper bot.

The Rust sources are embedded shallowly:
  * `src/instruction/mod.rs`   — `parse_instruction_data` and its helpers
  * `src/processor/mod.rs`     — per-token virtual-reserve tracking
  * `src/utils/auto_trader.rs` — snipe decision, sizing and scheduling
  * `src/utils/redis.rs`       — the delayed sell queue (sorted set + hash)
  * `src/utils/blockhash_cache.rs` — the blockhash cache
  * `src/transaction/mod.rs`   — `pump_buy` / `pump_sell` blockhash handling

Bytes are modelled as `Nat` (values < 256 at every concrete use), byte
buffers as `List Nat`, `u64` arithmetic as `Nat` with explicit saturation
at `2^64 - 1`, and the `f64` price arithmetic as exact `ℚ` arithmetic
(the claims settled here depend on which values feed the formulas, not on
f64 rounding).  A Rust panic is modelled as an explicit outcome.
-/

namespace Sniper

/-! ## Instruction decoding (`src/instruction/mod.rs`) -/

/-- `CREATE_EVENT_DISCRIMINATOR` from instruction/mod.rs line 35. -/
def CREATE_EVENT_DISCRIMINATOR : List Nat := [0x18, 0x1e, 0xc8, 0x28, 0x05, 0x1c, 0x07, 0x77]

/-- `BUY_EVENT_DISCRIMINATOR` from instruction/mod.rs line 37. -/
def BUY_EVENT_DISCRIMINATOR : List Nat := [0x66, 0x06, 0x3d, 0x12, 0x01, 0xda, 0xeb, 0xea]

/-- `CreateEventInstruction`: strings kept as their UTF-8 bytes, pubkey as 32 bytes. -/
structure CreateEventInstruction where
  name : List Nat
  symbol : List Nat
  uri : List Nat
  user : List Nat
deriving DecidableEq, Repr

/-- `BuyInstruction` from instruction/mod.rs. -/
structure BuyInstruction where
  amount : Nat
  max_sol_cost : Nat
deriving DecidableEq, Repr

/-- Result of `parse_instruction_data`: the Rust
`Result<(String, Option<CreateEventInstruction>, Option<BuyInstruction>), _>`
plus an explicit `panic` outcome for unwinds. -/
inductive ParseResult where
  | ok (tag : String) (createEvent : Option CreateEventInstruction)
      (buyEvent : Option BuyInstruction)
  | err (msg : String)
  | panic
deriving DecidableEq, Repr

/-- `Pubkey::default()`: 32 zero bytes. -/
def PUBKEY_DEFAULT : List Nat := List.replicate 32 0

/-- Is `b` a UTF-8 continuation byte (`0x80..=0xBF`)? -/
def isCont (b : Nat) : Bool := 0x80 ≤ b && b ≤ 0xBF

/-- UTF-8 validity of a byte sequence, exactly as Rust's `String::from_utf8`
checks it (rejecting overlong forms, surrogates and values above U+10FFFF).
Fuel-indexed; each step consumes at least one byte so `l.length` fuel suffices. -/
def validUtf8Aux : Nat → List Nat → Bool
  | _, [] => true
  | 0, _ :: _ => false
  | fuel + 1, b :: rest =>
    if b ≤ 0x7F then validUtf8Aux fuel rest
    else if 0xC2 ≤ b && b ≤ 0xDF then
      match rest with
      | c :: r => isCont c && validUtf8Aux fuel r
      | [] => false
    else if b = 0xE0 then
      match rest with
      | c :: d :: r => (0xA0 ≤ c && c ≤ 0xBF) && isCont d && validUtf8Aux fuel r
      | _ => false
    else if (0xE1 ≤ b && b ≤ 0xEC) || b = 0xEE || b = 0xEF then
      match rest with
      | c :: d :: r => isCont c && isCont d && validUtf8Aux fuel r
      | _ => false
    else if b = 0xED then
      match rest with
      | c :: d :: r => (0x80 ≤ c && c ≤ 0x9F) && isCont d && validUtf8Aux fuel r
      | _ => false
    else if b = 0xF0 then
      match rest with
      | c :: d :: e :: r => (0x90 ≤ c && c ≤ 0xBF) && isCont d && isCont e && validUtf8Aux fuel r
      | _ => false
    else if 0xF1 ≤ b && b ≤ 0xF3 then
      match rest with
      | c :: d :: e :: r => isCont c && isCont d && isCont e && validUtf8Aux fuel r
      | _ => false
    else if b = 0xF4 then
      match rest with
      | c :: d :: e :: r => (0x80 ≤ c && c ≤ 0x8F) && isCont d && isCont e && validUtf8Aux fuel r
      | _ => false
    else false

/-- UTF-8 validity of a whole byte list. -/
def validUtf8 (l : List Nat) : Bool := validUtf8Aux l.length l

/-- Read a little-endian `u32` from the front of a byte list
(borsh length prefix); `none` when fewer than 4 bytes remain. -/
def readU32LE (l : List Nat) : Option (Nat × List Nat) :=
  match l with
  | a :: b :: c :: d :: rest => some (a + 256 * b + 65536 * c + 16777216 * d, rest)
  | _ => none

/-- One borsh string: `u32` little-endian length then that many UTF-8 bytes. -/
def borshString (l : List Nat) : Option (List Nat × List Nat) :=
  match readU32LE l with
  | none => none
  | some (n, rest) =>
    if n ≤ rest.length then
      let s := rest.take n
      if validUtf8 s then some (s, rest.drop n) else none
    else none

/-- `CreateArgs::try_from_slice`: three borsh strings consuming the slice
exactly (borsh rejects trailing bytes). -/
def borshCreateArgs (l : List Nat) : Option (List Nat × List Nat × List Nat) :=
  match borshString l with
  | none => none
  | some (name, r1) =>
    match borshString r1 with
    | none => none
    | some (symbol, r2) =>
      match borshString r2 with
      | none => none
      | some (uri, r3) => if r3 = [] then some (name, symbol, uri) else none

/-- Read a little-endian `u64` from the front of a byte list. -/
def readU64LE (l : List Nat) : Option (Nat × List Nat) :=
  match l with
  | a :: b :: c :: d :: e :: f :: g :: h :: rest =>
    some (a + 256 * (b + 256 * (c + 256 * (d + 256 * (e + 256 * (f + 256 * (g + 256 * h)))))),
      rest)
  | _ => none

/-- `BuyArgs::try_from_slice`: two little-endian `u64`s consuming the slice
exactly. -/
def borshBuyArgs (l : List Nat) : Option (Nat × Nat) :=
  match readU64LE l with
  | none => none
  | some (amount, r1) =>
    match readU64LE r1 with
    | none => none
    | some (maxCost, r2) => if r2 = [] then some (amount, maxCost) else none

/-- `u32::from_le_bytes(data[i..i+4])` — callers establish `i + 4 ≤ data.length`. -/
def u32At (data : List Nat) (i : Nat) : Nat :=
  data.getD i 0 + 256 * data.getD (i + 1) 0 + 65536 * data.getD (i + 2) 0
    + 16777216 * data.getD (i + 3) 0

/-- `u64::from_le_bytes(data[i..i+8])` — callers establish `i + 8 ≤ data.length`. -/
def u64At (data : List Nat) (i : Nat) : Nat :=
  data.getD i 0 + 256 * (data.getD (i + 1) 0 + 256 * (data.getD (i + 2) 0
    + 256 * (data.getD (i + 3) 0 + 256 * (data.getD (i + 4) 0 + 256 * (data.getD (i + 5) 0
    + 256 * (data.getD (i + 6) 0 + 256 * data.getD (i + 7) 0))))))

/-- `data[i..i+n]` as a list. -/
def sliceBytes (data : List Nat) (i n : Nat) : List Nat := (data.drop i).take n

/-- The manual sequential parse of `{name, symbol, uri}` with explicit bounds
checks. instruction/mod.rs lines 69–108 (strict-create fallback) and lines
147–185 (the `[24, ..]` arm) are textually identical, so both paths share this
definition.  Returns the three strings and the offset just past the uri. -/
def manualCreateFields (data : List Nat) :
    Except String (List Nat × List Nat × List Nat × Nat) :=
  let offset0 := 8
  if offset0 + 4 > data.length then .error "Insufficient data for name length"
  else
    let name_len := u32At data offset0
    let offset1 := offset0 + 4
    if offset1 + name_len > data.length then .error "Insufficient data for name"
    else
      let nameB := sliceBytes data offset1 name_len
      if ¬ validUtf8 nameB then .error "invalid utf-8 sequence"
      else
        let offset2 := offset1 + name_len
        if offset2 + 4 > data.length then .error "Insufficient data for symbol length"
        else
          let symbol_len := u32At data offset2
          let offset3 := offset2 + 4
          if offset3 + symbol_len > data.length then .error "Insufficient data for symbol"
          else
            let symbolB := sliceBytes data offset3 symbol_len
            if ¬ validUtf8 symbolB then .error "invalid utf-8 sequence"
            else
              let offset4 := offset3 + symbol_len
              if offset4 + 4 > data.length then .error "Insufficient data for URI length"
              else
                let uri_len := u32At data offset4
                let offset5 := offset4 + 4
                if offset5 + uri_len > data.length then .error "Insufficient data for URI"
                else
                  let uriB := sliceBytes data offset5 uri_len
                  if ¬ validUtf8 uriB then .error "invalid utf-8 sequence"
                  else .ok (nameB, symbolB, uriB, offset5 + uri_len)

/-- `parse_instruction_data` (instruction/mod.rs lines 39–209), match arms in
source order: strict create, strict buy, `[24, ..]` create variant,
`[102, ..]` buy variant, unknown.

On the strict-create borsh-success path the source computes
`let user_offset = data.len() - 32;` with `usize` arithmetic.  When
`data.len() < 32` this unwinds: in debug builds the subtraction itself
panics, and in release builds the wrapped offset later makes the slice
`data[user_offset..user_offset + 32]` panic on an out-of-range start.  Both
builds end in a panic, modelled as `ParseResult.panic`. -/
def parse_instruction_data (data : List Nat) : ParseResult :=
  if data.length < 8 then .err "Instruction data too short"
  else if data.take 8 = CREATE_EVENT_DISCRIMINATOR then
    match borshCreateArgs (data.drop 8) with
    | some (name, symbol, uri) =>
      if data.length < 32 then .panic
      else
        let user_offset := data.length - 32
        let user :=
          if 8 ≤ user_offset ∧ user_offset + 32 ≤ data.length then
            sliceBytes data user_offset 32
          else PUBKEY_DEFAULT
        .ok "CreateEvent" (some ⟨name, symbol, uri, user⟩) none
    | none =>
      match manualCreateFields data with
      | .error e => .err e
      | .ok (name, symbol, uri, offset) =>
        if offset + 32 > data.length then .err "Insufficient data for user pubkey"
        else .ok "CreateEvent" (some ⟨name, symbol, uri, sliceBytes data offset 32⟩) none
  else if data.take 8 = BUY_EVENT_DISCRIMINATOR then
    match borshBuyArgs (data.drop 8) with
    | some (amount, maxCost) => .ok "Buy" none (some ⟨amount, maxCost⟩)
    | none =>
      if data.length < 24 then .err "Insufficient data for Buy instruction"
      else .ok "Buy" none (some ⟨u64At data 8, u64At data 16⟩)
  else if data.headD 0 = 24 then
    match manualCreateFields data with
    | .error e => .err e
    | .ok (name, symbol, uri, _) =>
      .ok "CreateEvent" (some ⟨name, symbol, uri, PUBKEY_DEFAULT⟩) none
  else if data.headD 0 = 102 then
    if data.length < 24 then .err "Insufficient data for BuyTokens instruction"
    else .ok "Buy" none (some ⟨u64At data 8, u64At data 16⟩)
  else .err "Unknown instruction data"

/-! ## Reserve tracking (`src/processor/mod.rs`) -/

/-- `u64::MAX`, the saturation bound of `saturating_add`. -/
def U64_MAX : Nat := 2 ^ 64 - 1

/-- `TokenReserves` from processor/mod.rs lines 12–15. -/
structure TokenReserves where
  virtual_sol_reserves : Nat
  virtual_token_reserves : Nat
deriving DecidableEq, Repr

/-- The fixed initial virtual reserves inserted on a creation event
(processor/mod.rs lines 88–89). -/
def initialReserves : TokenReserves := ⟨30000000000, 1073000000000000⟩

/-- The reserve update on a buy event, processor/mod.rs lines 160–170 (the
legacy path, lines 311–321, is textually identical):
`virtual_sol_reserves.saturating_add(sol_amount)`, and
`virtual_token_reserves.saturating_sub(token_amount)` guarded by
`token_amount <= virtual_token_reserves` (under that guard the saturating
subtraction is plain subtraction). -/
def applyTrade (r : TokenReserves) (token_amount sol_amount : Nat) : TokenReserves :=
  { virtual_sol_reserves := min (r.virtual_sol_reserves + sol_amount) U64_MAX,
    virtual_token_reserves :=
      if token_amount ≤ r.virtual_token_reserves then
        r.virtual_token_reserves - token_amount
      else r.virtual_token_reserves }

/-- The implied price `(virtual_sol / 1e9) / (virtual_token / 1e6)`
(processor/mod.rs lines 125–127 and 173–175), as exact rational arithmetic in
place of `f64`. -/
def impliedPrice (r : TokenReserves) : ℚ :=
  ((r.virtual_sol_reserves : ℚ) / 1000000000) / ((r.virtual_token_reserves : ℚ) / 1000000)

/-- Handling of a Buy event for a mint that is already tracked
(processor/mod.rs lines 98–192): `token_price` is computed from the current
reserves at lines 124–130 — before the reserve update, which only happens
afterwards at lines 160–170 — and that price is what `snipe_token` receives.
Returns the price handed to the auto trader together with the updated
reserves. -/
def processBuyEvent (r : TokenReserves) (token_amount sol_amount : Nat) :
    ℚ × TokenReserves :=
  let token_price := impliedPrice r
  let updated := applyTrade r token_amount sol_amount
  (token_price, updated)

/-- The default price estimate used for an untracked mint
(processor/mod.rs line 129). -/
def DEFAULT_PRICE_ESTIMATE : ℚ := 33 / 1000000000

/-- The token-reserves map, `HashMap<String, TokenReserves>` modelled as a
function to `Option`. -/
def ReservesMap : Type := String → Option TokenReserves

/-- Handling of a CreateEvent (processor/mod.rs lines 85–95): insert the
fixed initial reserves only when the mint has no entry yet. -/
def processCreateEvent (m : ReservesMap) (mint : String) : ReservesMap :=
  if (m mint).isSome then m
  else fun k => if k = mint then some initialReserves else m k

/-! ## Delayed sell queue (`src/utils/redis.rs`)

The Redis state the client touches: the sorted set `mints_to_sell`
(member → score = due time in ms) and the hash `mint_amounts`
(member → token amount).  Both are association lists with unique keys. -/

structure RedisState where
  mints_to_sell : List (String × Nat)
  mint_amounts : List (String × Nat)
deriving DecidableEq, Repr

/-- `ZADD`: update the member's score when present, append otherwise. -/
def zadd (s : List (String × Nat)) (k : String) (v : Nat) : List (String × Nat) :=
  if s.any (fun p => p.1 = k) then s.map (fun p => if p.1 = k then (k, v) else p)
  else s ++ [(k, v)]

/-- `ZREM`: remove the member. -/
def zrem (s : List (String × Nat)) (k : String) : List (String × Nat) :=
  s.filter (fun p => ¬ p.1 = k)

/-- `ZSCORE`-style lookup of a member's score. -/
def zscore (s : List (String × Nat)) (k : String) : Option Nat :=
  (s.find? (fun p => p.1 = k)).map (fun p => p.2)

/-- `ZRANGEBYSCORE lo hi`: members with score in `[lo, hi]`. -/
def zrangebyscore (s : List (String × Nat)) (lo hi : Nat) : List String :=
  (s.filter (fun p => lo ≤ p.2 ∧ p.2 ≤ hi)).map (fun p => p.1)

/-- `HSET`: set the field's value. -/
def hset (s : List (String × Nat)) (k : String) (v : Nat) : List (String × Nat) :=
  if s.any (fun p => p.1 = k) then s.map (fun p => if p.1 = k then (k, v) else p)
  else s ++ [(k, v)]

/-- `HGET`. -/
def hget (s : List (String × Nat)) (k : String) : Option Nat :=
  (s.find? (fun p => p.1 = k)).map (fun p => p.2)

/-- `HDEL`. -/
def hdel (s : List (String × Nat)) (k : String) : List (String × Nat) :=
  s.filter (fun p => ¬ p.1 = k)

/-- `store_mint_with_amount` (redis.rs lines 43–63): `ZADD mints_to_sell
mint (now + delay_ms)` and `HSET mint_amounts mint amount`. -/
def store_mint_with_amount (st : RedisState) (mint : String) (amount : Nat)
    (now delay_ms : Nat) : RedisState :=
  { mints_to_sell := zadd st.mints_to_sell mint (now + delay_ms),
    mint_amounts := hset st.mint_amounts mint amount }

/-- `get_mint_amount` (redis.rs lines 66–82). -/
def get_mint_amount (st : RedisState) (mint : String) : Option Nat :=
  hget st.mint_amounts mint

/-- `get_mints_to_sell` (redis.rs lines 85–98): `ZRANGEBYSCORE mints_to_sell 0 now`. -/
def get_mints_to_sell (st : RedisState) (now : Nat) : List String :=
  zrangebyscore st.mints_to_sell 0 now

/-- `remove_sold_mint` (redis.rs lines 101–113): removes both the sorted-set
entry and the hash record.  (Defined in the source but never called by the
scheduler loop.) -/
def remove_sold_mint (st : RedisState) (mint : String) : RedisState :=
  { mints_to_sell := zrem st.mints_to_sell mint,
    mint_amounts := hdel st.mint_amounts mint }

/-- `get_and_remove_mints_to_sell` (redis.rs lines 116–139): read the due
members, then `ZREM` each from `mints_to_sell`.  The hash `mint_amounts` is
not touched on this path. -/
def get_and_remove_mints_to_sell (st : RedisState) (now : Nat) :
    List String × RedisState :=
  let mints := get_mints_to_sell st now
  if mints = [] then ([], st)
  else
    (mints,
      { st with mints_to_sell := mints.foldl (fun z k => zrem z k) st.mints_to_sell })

/-! ## Auto trader (`src/utils/auto_trader.rs`) -/

/-- The `AutoTrader` policy fields. -/
structure AutoTrader where
  min_sol_price : Nat
  max_sol_price : Nat
  buy_amount : Nat
  sell_delay_ms : Nat
deriving DecidableEq, Repr

/-- The defaults set in `AutoTrader::new` (auto_trader.rs lines 32–35). -/
def defaultAutoTrader : AutoTrader :=
  { min_sol_price := 500000000, max_sol_price := 1000000000,
    buy_amount := 100000000, sell_delay_ms := 5000 }

/-- `should_snipe` (auto_trader.rs lines 280–282):
`sol_amount >= min_sol_price && sol_amount <= max_sol_price`. -/
def should_snipe (t : AutoTrader) (sol_amount : Nat) : Bool :=
  decide (t.min_sol_price ≤ sol_amount) && decide (sol_amount ≤ t.max_sol_price)

/-- The position-sizing formula of `snipe_token` (auto_trader.rs lines
207–229), `floor(buy_sol/1e9 / price * 0.85 * 1e6)`, with the `f64`
arithmetic carried out exactly in `ℚ`. -/
def computeTokenAmount (buy_amount : Nat) (token_price : ℚ) : Nat :=
  (⌊(buy_amount : ℚ) / 1000000000 / token_price * (85 / 100) * 1000000⌋).toNat

/-- `snipe_token` (auto_trader.rs lines 202–277).  External effects are
parameters: `mint_parses` is whether `Pubkey::from_str` succeeds, `buyResult`
is the outcome of the `pump_buy` submission (`some signature` / `none`).  On
a successful buy the queue state after `store_mint_with_amount` is returned
together with the purchased token amount; every failure path returns a typed
error and no state. -/
def snipe_token (trader : AutoTrader) (st : RedisState) (token_mint : String)
    (mint_parses : Bool) (token_price : ℚ) (buyResult : Option String)
    (now : Nat) : Except String (Nat × RedisState) :=
  if ¬ mint_parses then .error "invalid mint pubkey"
  else if token_price ≤ 0 then .error "Invalid token price"
  else
    let token_amount := computeTokenAmount trader.buy_amount token_price
    match buyResult with
    | some _sig =>
      .ok (token_amount,
        store_mint_with_amount st token_mint token_amount now trader.sell_delay_ms)
    | none => .error "Snipe failed"

/-! ## Blockhash cache (`src/utils/blockhash_cache.rs`) -/

/-- The cache slot: `Option<(Hash, Instant)>` with hashes and instants as `Nat`. -/
structure BlockhashCacheState where
  cached_blockhash : Option (Nat × Nat)
deriving DecidableEq, Repr

/-- `get_latest_blockhash` (blockhash_cache.rs lines 30–54).  `now` is the
current instant, `fetchResult` the outcome the RPC would return
(`none` = fetch error).  If the cached value's age `now - t` is below
`max_age` it is returned with the state untouched; otherwise a fetch is
attempted, and on fetch failure the `?` operator returns the error before
the cache-update line runs, so the state is also untouched. -/
def get_latest_blockhash (st : BlockhashCacheState) (max_age now : Nat)
    (fetchResult : Option Nat) : Except Unit Nat × BlockhashCacheState :=
  match st.cached_blockhash with
  | some (h, t) =>
    if now - t < max_age then (.ok h, st)
    else
      match fetchResult with
      | some nh => (.ok nh, ⟨some (nh, now)⟩)
      | none => (.error (), st)
  | none =>
    match fetchResult with
    | some nh => (.ok nh, ⟨some (nh, now)⟩)
    | none => (.error (), st)

/-! ## Transaction building (`src/transaction/mod.rs`) -/

/-- `PUMP_BUY_SELECTOR` (transaction/mod.rs line 30). -/
def PUMP_BUY_SELECTOR : List Nat := [82, 225, 119, 231, 78, 29, 45, 70]

/-- `PUMP_SELL_SELECTOR` (transaction/mod.rs line 31). -/
def PUMP_SELL_SELECTOR : List Nat := [83, 225, 119, 231, 78, 29, 45, 70]

/-- `n.to_le_bytes()` for a `u64`. -/
def u64ToLe (n : Nat) : List Nat :=
  [n % 256, n / 256 % 256, n / 65536 % 256, n / 16777216 % 256,
   n / 4294967296 % 256, n / 1099511627776 % 256,
   n / 281474976710656 % 256, n / 72057594037927936 % 256]

/-- What a `pump_buy`/`pump_sell` call submits: the instruction data bytes,
the blockhash the transaction was signed with, and whether that blockhash
was fetched inside the function (as opposed to being the caller's). -/
structure PumpSubmission where
  data_bytes : List Nat
  blockhash : Nat
  fetched_internally : Bool
deriving DecidableEq, Repr

/-- `pump_buy` (transaction/mod.rs lines 47–176) up to the submission call:
instruction data `PUMP_BUY_SELECTOR ++ token_amount LE ++ max_sol_cost LE`
(lines 59–62); blockhash selection (lines 122–144): a provided
`cached_blockhash` is used directly, otherwise the function itself calls the
RPC and `.unwrap()`s the result — `none` models the panic when that internal
fetch fails. -/
def pump_buy (token_amount max_sol_cost : Nat) (cached_blockhash : Option Nat)
    (rpcFetch : Option Nat) : Option PumpSubmission :=
  let d := PUMP_BUY_SELECTOR ++ u64ToLe token_amount ++ u64ToLe max_sol_cost
  match cached_blockhash with
  | some h => some ⟨d, h, false⟩
  | none =>
    match rpcFetch with
    | some h => some ⟨d, h, true⟩
    | none => none

/-- `pump_sell` (transaction/mod.rs lines 189–299): instruction data
`PUMP_SELL_SELECTOR ++ token_amount LE ++ min_sol_receive LE` (lines
201–204) and the same blockhash selection as `pump_buy` (lines 245–267). -/
def pump_sell (token_amount min_sol_receive : Nat) (cached_blockhash : Option Nat)
    (rpcFetch : Option Nat) : Option PumpSubmission :=
  let d := PUMP_SELL_SELECTOR ++ u64ToLe token_amount ++ u64ToLe min_sol_receive
  match cached_blockhash with
  | some h => some ⟨d, h, false⟩
  | none =>
    match rpcFetch with
    | some h => some ⟨d, h, true⟩
    | none => none

/-! ## Concrete states and inputs used in closed statements -/

/-- A create-discriminator payload whose tail is a valid borsh encoding of
three empty strings: 20 bytes in total, shorter than the 32 bytes the
`user_offset` computation assumes. -/
def shortBorshCreateInput : List Nat := CREATE_EVENT_DISCRIMINATOR ++ List.replicate 12 0

/-- A buy-discriminator payload with a full 16-byte borsh `BuyArgs` body. -/
def zeroBuyInput : List Nat := BUY_EVENT_DISCRIMINATOR ++ List.replicate 16 0

/-- Folding a list of `(token_amount, sol_amount)` trade events through the
reserve update. -/
def foldTrades (r : TokenReserves) (trades : List (Nat × Nat)) : TokenReserves :=
  trades.foldl (fun s p => applyTrade s p.1 p.2) r

/-- A queue state with one pending sale: mint "m", due at 5 ms, amount 42. -/
def pendingSaleState : RedisState := ⟨[("m", 5)], [("m", 42)]⟩

/-- A reserves map that tracks exactly the mint "A". -/
def singletonReserves : ReservesMap :=
  fun k => if k = "A" then some initialReserves else none

/-! ## Helper lemmas -/

theorem applyTrade_token_le (r : TokenReserves) (ta sa : Nat) :
    (applyTrade r ta sa).virtual_token_reserves ≤ r.virtual_token_reserves := by
  simp only [applyTrade]
  split <;> omega

theorem applyTrade_sol_le (r : TokenReserves) (ta sa : Nat) :
    (applyTrade r ta sa).virtual_sol_reserves ≤ U64_MAX := by
  simp only [applyTrade]
  exact min_le_right _ _

theorem foldTrades_token_le (trades : List (Nat × Nat)) :
    ∀ r : TokenReserves,
      (foldTrades r trades).virtual_token_reserves ≤ r.virtual_token_reserves := by
  induction trades with
  | nil => intro r; exact le_rfl
  | cons hd tl ih =>
    intro r
    exact le_trans (ih (applyTrade r hd.1 hd.2)) (applyTrade_token_le r hd.1 hd.2)

theorem foldTrades_sol_le (trades : List (Nat × Nat)) :
    ∀ r : TokenReserves, r.virtual_sol_reserves ≤ U64_MAX →
      (foldTrades r trades).virtual_sol_reserves ≤ U64_MAX := by
  induction trades with
  | nil => intro r h; exact h
  | cons hd tl ih =>
    intro r _
    exact ih (applyTrade r hd.1 hd.2) (applyTrade_sol_le r hd.1 hd.2)

/-! ## Claim C1 -/

/-- C1: the claim that `parse_instruction_data` never panics fails on the
code.  The 20-byte payload `shortBorshCreateInput` (strict create
discriminator followed by a valid borsh encoding of three empty strings)
drives the strict-create borsh-success path into `data.len() - 32`, which
unwinds since the payload is shorter than 32 bytes; payloads shorter than 8
bytes do take the typed `TooShort` failure. -/
theorem c1_short_borsh_create_panics :
    parse_instruction_data shortBorshCreateInput = ParseResult.panic ∧
    shortBorshCreateInput.length = 20 ∧
    borshCreateArgs (shortBorshCreateInput.drop 8) = some ([], [], []) ∧
    parse_instruction_data [0, 1, 2] = ParseResult.err "Instruction data too short" := by
  decide

/-! ## Claim C2 -/

/-- C2 counterexample: on a tracked asset the price handed to the
auto-trading decision is NOT the post-update implied price.  With the
initial reserves and a buy of `sol_amount = 10^9`, `token_amount = 0`, the
supplied price is `30/1073000000` while the post-update reserves imply
`31/1073000000`. -/
theorem c2_counterexample :
    (processBuyEvent initialReserves 0 1000000000).1 ≠
      impliedPrice (processBuyEvent initialReserves 0 1000000000).2 := by
  norm_num [processBuyEvent, impliedPrice, applyTrade, initialReserves, U64_MAX]

/-- C2 (amended): the implied price supplied to the auto-trading decision is
computed from the reserves BEFORE the event's update is applied; the
post-update reserves are produced afterwards by the same event. -/
theorem c2_price_supplied_is_pre_update (r : TokenReserves) (ta sa : Nat) :
    (processBuyEvent r ta sa).1 = impliedPrice r ∧
    (processBuyEvent r ta sa).2 = applyTrade r ta sa :=
  ⟨rfl, rfl⟩

/-! ## Claim C3 -/

/-- C3: on every trade event, base (SOL) reserves grow by the quote amount
with saturation at `u64::MAX`, asset (token) reserves shrink by the asset
amount exactly when it does not exceed the current reserve and stay
unchanged otherwise, and over any sequence of trades the token reserve never
underflows and the SOL reserve never wraps past `u64::MAX`. -/
theorem c3_reserve_update_never_underflows (r : TokenReserves) (ta sa : Nat)
    (trades : List (Nat × Nat)) :
    (applyTrade r ta sa).virtual_sol_reserves
        = min (r.virtual_sol_reserves + sa) U64_MAX ∧
    (ta ≤ r.virtual_token_reserves →
      (applyTrade r ta sa).virtual_token_reserves = r.virtual_token_reserves - ta) ∧
    (r.virtual_token_reserves < ta →
      (applyTrade r ta sa).virtual_token_reserves = r.virtual_token_reserves) ∧
    (foldTrades r trades).virtual_token_reserves ≤ r.virtual_token_reserves ∧
    (r.virtual_sol_reserves ≤ U64_MAX →
      (foldTrades r trades).virtual_sol_reserves ≤ U64_MAX) := by
  refine ⟨rfl, ?_, ?_, foldTrades_token_le trades r, fun h => foldTrades_sol_le trades r h⟩
  · intro h
    simp only [applyTrade]
    rw [if_pos h]
  · intro h
    simp only [applyTrade]
    rw [if_neg (by omega)]

/-- C3 witness: the update and sequence bounds at concrete inputs. -/
theorem c3_witness :
    (applyTrade initialReserves 5 7).virtual_token_reserves
        = initialReserves.virtual_token_reserves - 5 ∧
    (foldTrades initialReserves [(5, 7), (9, 11)]).virtual_sol_reserves ≤ U64_MAX :=
  ⟨(c3_reserve_update_never_underflows initialReserves 5 7 []).2.1 (by decide),
   (c3_reserve_update_never_underflows initialReserves 0 0 [(5, 7), (9, 11)]).2.2.2.2
     (by decide)⟩

/-! ## Claim C4 -/

/-- C4 counterexample: called with `cached_blockhash = None`, both `pump_buy`
and `pump_sell` DO perform an internal fetch of a block reference, refuting
"never perform an internal fetch". -/
theorem c4_counterexample :
    (pump_buy 1 2 none (some 7)).map (fun s => s.fetched_internally) = some true ∧
    (pump_sell 1 2 none (some 7)).map (fun s => s.fetched_internally) = some true := by
  decide

/-- C4 (amended): when the caller provides a block reference, `pump_buy` and
`pump_sell` use it directly and never fetch internally; when the caller
provides none, they fetch one internally from the RPC (and unwind if that
internal fetch fails). -/
theorem c4_cached_blockhash_used_directly (ta mc h : Nat) (f : Option Nat) :
    pump_buy ta mc (some h) f
        = some ⟨PUMP_BUY_SELECTOR ++ u64ToLe ta ++ u64ToLe mc, h, false⟩ ∧
    pump_sell ta mc (some h) f
        = some ⟨PUMP_SELL_SELECTOR ++ u64ToLe ta ++ u64ToLe mc, h, false⟩ ∧
    pump_buy ta mc none f
        = f.map (fun x => ⟨PUMP_BUY_SELECTOR ++ u64ToLe ta ++ u64ToLe mc, x, true⟩) ∧
    pump_sell ta mc none f
        = f.map (fun x => ⟨PUMP_SELL_SELECTOR ++ u64ToLe ta ++ u64ToLe mc, x, true⟩) :=
  ⟨rfl, rfl, by cases f <;> rfl, by cases f <;> rfl⟩

/-! ## Claim C5 -/

theorem mem_foldl_zrem_subset (ks : List String) :
    ∀ (z : List (String × Nat)) (p : String × Nat),
      p ∈ ks.foldl (fun z k => zrem z k) z → p ∈ z := by
  induction ks with
  | nil => intro z p h; exact h
  | cons a rest ih =>
    intro z p h
    have h2 := ih (zrem z a) p h
    exact (List.mem_filter.mp h2).1

theorem foldl_zrem_not_mem (ks : List String) :
    ∀ (z : List (String × Nat)) (k : String), k ∈ ks →
      ∀ p ∈ ks.foldl (fun z k => zrem z k) z, p.1 ≠ k := by
  induction ks with
  | nil => intro z k hk; cases hk
  | cons a rest ih =>
    intro z k hk p hp
    rcases List.mem_cons.mp hk with rfl | hk'
    · have hsub := mem_foldl_zrem_subset rest (zrem z k) p hp
      have := (List.mem_filter.mp hsub).2
      simpa using this
    · exact ih (zrem z a) k hk' p hp

/-- C5 counterexample: popping the ready pending sale for "m" removes its
schedule entry but leaves its companion amount record in place — the amount
is still retrievable, refuting "both … are gone after the pop".  (The sell
loop depends on this: it reads the amount only after the pop.) -/
theorem c5_counterexample :
    (get_and_remove_mints_to_sell pendingSaleState 10).1 = ["m"] ∧
    get_mint_amount (get_and_remove_mints_to_sell pendingSaleState 10).2 "m"
      = some 42 := by
  decide

/-- C5 (amended): when the scheduler pops the ready pending sales, each
popped asset's entry in the due-time schedule set is removed, but its
companion amount record is left unchanged (its removal happens only in
`remove_sold_mint`, which the scheduler loop never calls). -/
theorem c5_pop_removes_schedule_entry_only (st : RedisState) (now : Nat)
    (k : String) (hk : k ∈ (get_and_remove_mints_to_sell st now).1) :
    (get_and_remove_mints_to_sell st now).2.mint_amounts = st.mint_amounts ∧
    zscore (get_and_remove_mints_to_sell st now).2.mints_to_sell k = none := by
  unfold get_and_remove_mints_to_sell at hk ⊢
  by_cases hempty : get_mints_to_sell st now = []
  · rw [if_pos hempty] at hk
    simp at hk
  · rw [if_neg hempty] at hk ⊢
    refine ⟨rfl, ?_⟩
    unfold zscore
    rw [Option.map_eq_none', List.find?_eq_none]
    intro p hp
    have hne := foldl_zrem_not_mem (get_mints_to_sell st now) st.mints_to_sell k hk p hp
    simpa using hne

/-- C5 amended-claim witness at the concrete one-sale state. -/
theorem c5_pop_witness :
    (get_and_remove_mints_to_sell pendingSaleState 10).2.mint_amounts
        = pendingSaleState.mint_amounts ∧
    zscore (get_and_remove_mints_to_sell pendingSaleState 10).2.mints_to_sell "m"
        = none :=
  c5_pop_removes_schedule_entry_only pendingSaleState 10 "m" (by decide)

/-! ## Claim C6 -/

/-- C6: when the cache is empty, or the cached entry's age has reached
`max_age`, and the underlying fetch fails, `get_latest_blockhash` returns a
typed error — never the stale cached value — and leaves the cache state
unchanged. -/
theorem c6_fetch_failure_preserves_cache (st : BlockhashCacheState)
    (max_age now : Nat)
    (hexp : ∀ h t, st.cached_blockhash = some (h, t) → max_age ≤ now - t) :
    get_latest_blockhash st max_age now none = (.error (), st) := by
  obtain ⟨c⟩ := st
  cases c with
  | none => rfl
  | some p =>
    obtain ⟨h, t⟩ := p
    have hage := hexp h t rfl
    unfold get_latest_blockhash
    simp only
    rw [if_neg (by omega)]

/-- C6 witness: an expired entry `(hash 9, fetched at 0)` with `max_age 500`
at `now = 1000` and a failing fetch. -/
theorem c6_witness :
    get_latest_blockhash ⟨some (9, 0)⟩ 500 1000 none = (.error (), ⟨some (9, 0)⟩) :=
  c6_fetch_failure_preserves_cache ⟨some (9, 0)⟩ 500 1000
    (by intro h t hEq; cases hEq; decide)

/-! ## Claim C7 -/

theorem find_set_aux (k : String) (v : Nat) (s : List (String × Nat)) :
    ((if s.any (fun p => p.1 = k) then s.map (fun p => if p.1 = k then (k, v) else p)
      else s ++ [(k, v)]).find? (fun p => p.1 = k)) = some (k, v) := by
  induction s with
  | nil => simp
  | cons hd tl ih =>
    by_cases hhd : hd.1 = k
    · simp [List.any_cons, hhd]
    · simp only [List.any_cons, hhd, decide_False, Bool.false_or, List.map_cons,
        if_neg hhd, List.cons_append]
      rcases htl : tl.any (fun p => decide (p.1 = k)) with _ | _
      · simp only [htl, Bool.false_eq_true, ite_false] at ih ⊢
        rwa [List.find?_cons_of_neg _ (by simpa using hhd)]
      · simp only [htl, ite_true] at ih ⊢
        rwa [List.find?_cons_of_neg _ (by simpa using hhd)]

theorem zscore_zadd (s : List (String × Nat)) (k : String) (v : Nat) :
    zscore (zadd s k v) k = some v := by
  unfold zscore zadd
  rw [find_set_aux]
  rfl

theorem hget_hset (s : List (String × Nat)) (k : String) (v : Nat) :
    hget (hset s k v) k = some v := by
  unfold hget hset
  rw [find_set_aux]
  rfl

/-- C7: `snipe_token` enqueues a delayed sell — keyed by the mint, carrying
the exact token amount it bought and due at `now + sell_delay_ms` — exactly
when the buy submission succeeded; a failed buy yields a typed error and no
enqueued state. -/
theorem c7_enqueue_iff_buy_succeeded (trader : AutoTrader) (st : RedisState)
    (mint : String) (price : ℚ) (buyResult : Option String) (now : Nat) :
    (∀ amt st',
      snipe_token trader st mint true price buyResult now = .ok (amt, st') →
        buyResult.isSome = true ∧
        amt = computeTokenAmount trader.buy_amount price ∧
        get_mint_amount st' mint = some amt ∧
        zscore st'.mints_to_sell mint = some (now + trader.sell_delay_ms)) ∧
    (buyResult = none →
      ∃ e, snipe_token trader st mint true price buyResult now = .error e) ∧
    (0 < price → ∀ sig, buyResult = some sig →
      snipe_token trader st mint true price buyResult now =
        .ok (computeTokenAmount trader.buy_amount price,
          store_mint_with_amount st mint
            (computeTokenAmount trader.buy_amount price) now trader.sell_delay_ms)) := by
  refine ⟨?_, ?_, ?_⟩
  · intro amt st' h
    unfold snipe_token at h
    simp only [not_true, ite_false] at h
    split at h
    · cases h
    · cases buyResult with
      | none => cases h
      | some sig =>
        simp only at h
        cases h
        exact ⟨rfl, rfl, hget_hset _ _ _, zscore_zadd _ _ _⟩
  · intro hb
    unfold snipe_token
    simp only [not_true, ite_false, hb]
    split
    · exact ⟨"Invalid token price", rfl⟩
    · exact ⟨"Snipe failed", rfl⟩
  · intro hpos sig hb
    unfold snipe_token
    simp only [not_true, ite_false, hb]
    rw [if_neg (by exact not_le.mpr hpos)]

/-- C7 witness: a successful buy at the default policy enqueues the bought
amount with due time `1000 + 5000`. -/
theorem c7_witness :
    snipe_token defaultAutoTrader ⟨[], []⟩ "m" true (33 / 1000000000) (some "sig") 1000 =
      .ok (computeTokenAmount defaultAutoTrader.buy_amount (33 / 1000000000),
        store_mint_with_amount ⟨[], []⟩ "m"
          (computeTokenAmount defaultAutoTrader.buy_amount (33 / 1000000000))
          1000 defaultAutoTrader.sell_delay_ms) :=
  (c7_enqueue_iff_buy_succeeded defaultAutoTrader ⟨[], []⟩ "m" (33 / 1000000000)
    (some "sig") 1000).2.2 (by norm_num) "sig" rfl

/-! ## Claim C8 -/

/-- C8: a creation event for a mint that already has a reserves entry leaves
the map unchanged; the first creation event inserts exactly the fixed
initial reserves (base 30,000,000,000; asset 1,073,000,000,000,000) and
touches no other key. -/
theorem c8_create_idempotent (m : ReservesMap) (mint : String) :
    ((m mint).isSome = true → processCreateEvent m mint = m) ∧
    (m mint = none →
      processCreateEvent m mint mint = some ⟨30000000000, 1073000000000000⟩ ∧
      ∀ k, k ≠ mint → processCreateEvent m mint k = m k) := by
  constructor
  · intro h
    unfold processCreateEvent
    rw [if_pos h]
  · intro h
    have hnot : ¬ (m mint).isSome = true := by simp [h]
    constructor
    · unfold processCreateEvent
      rw [if_neg hnot, if_pos rfl]
      rfl
    · intro k hk
      unfold processCreateEvent
      rw [if_neg hnot]
      simp only [if_neg hk]

/-- C8 witness: re-creating the tracked mint "A" is a no-op and creating the
fresh mint "B" installs the initial reserves. -/
theorem c8_witness :
    processCreateEvent singletonReserves "A" = singletonReserves ∧
    processCreateEvent singletonReserves "B" "B"
      = some ⟨30000000000, 1073000000000000⟩ :=
  ⟨(c8_create_idempotent singletonReserves "A").1 (by decide),
   ((c8_create_idempotent singletonReserves "B").2 (by decide)).1⟩

/-! ## Claim C9 -/

/-- C9: `should_snipe` accepts an observed quote amount exactly when it lies
within the configured bounds, both ends inclusive; in particular, whenever
the bounds are consistent it accepts exactly the minimum and exactly the
maximum. -/
theorem c9_should_snipe_iff_within_bounds (t : AutoTrader) (x : Nat) :
    (should_snipe t x = true ↔ t.min_sol_price ≤ x ∧ x ≤ t.max_sol_price) ∧
    (t.min_sol_price ≤ t.max_sol_price →
      should_snipe t t.min_sol_price = true ∧ should_snipe t t.max_sol_price = true) := by
  constructor
  · simp [should_snipe]
  · intro h
    constructor <;> simp [should_snipe, h]

/-- C9 witness: the default policy accepts its own boundary values. -/
theorem c9_witness :
    should_snipe defaultAutoTrader defaultAutoTrader.min_sol_price = true ∧
    should_snipe defaultAutoTrader defaultAutoTrader.max_sol_price = true :=
  (c9_should_snipe_iff_within_bounds defaultAutoTrader 0).2 (by decide)

/-! ## Claim C10 -/

/-- C10: whenever `parse_instruction_data` succeeds, exactly one event
option is populated and it matches the returned tag: tag "CreateEvent" with
a create event and no buy event, or tag "Buy" with a buy event and no create
event. -/
theorem c10_ok_tag_matches_events (data : List Nat) (tag : String)
    (ce : Option CreateEventInstruction) (be : Option BuyInstruction)
    (h : parse_instruction_data data = .ok tag ce be) :
    (tag = "CreateEvent" ∧ ce.isSome = true ∧ be = none) ∨
    (tag = "Buy" ∧ ce = none ∧ be.isSome = true) := by
  unfold parse_instruction_data at h
  repeat' split at h
  all_goals cases h <;> simp

/-- C10 witness: the all-zero borsh buy payload parses to tag "Buy" with
only the buy option populated. -/
theorem c10_witness :
    ("Buy" = "CreateEvent" ∧ (none : Option CreateEventInstruction).isSome = true ∧
        (some (⟨0, 0⟩ : BuyInstruction)) = none) ∨
    ("Buy" = "Buy" ∧ (none : Option CreateEventInstruction) = none ∧
        (some (⟨0, 0⟩ : BuyInstruction)).isSome = true) :=
  c10_ok_tag_matches_events zeroBuyInput "Buy" none (some ⟨0, 0⟩) (by decide)

end Sniper
